import Mathlib

/-!
Shallow embedding of `src/mariadb_mcp/server.py` (MariaDB MCP server):
the configuration loader, the connection gateway (pool lifecycle), the
query executor, the read-only statement guard and the result formatter,
together with the dispatcher-facing boundary operations
(`list_databases`, `list_tables`, `get_table_schema`, `execute_sql`,
`reload_config`).

Python strings are modelled as Lean `String`, with the handful of
Python string methods the source uses (`strip`, `upper`, `startswith`)
re-implemented on the underlying character list so that they are
directly executable and provable.  Driver effects (aiomysql) are
modelled by passing an explicit driver function; exceptions are
modelled with `Except`.
-/

namespace MariadbMcp

/-! ### Python string primitives used by the source -/

/-- Python `str.strip()`: drop leading and trailing whitespace. -/
def pyStrip (s : String) : String :=
  String.mk (((s.data.dropWhile Char.isWhitespace).reverse.dropWhile Char.isWhitespace).reverse)

/-- Python `str.upper()` (ASCII case folding). -/
def pyUpper (s : String) : String :=
  String.mk (s.data.map Char.toUpper)

/-- Python `s.startswith(kw)`. -/
def strStarts (s kw : String) : Bool :=
  kw.data.isPrefixOf s.data

/-- `strHasPre p s`: the string `s` begins with `p` (used to state the
documented failure-text prefixes). -/
def strHasPre (p s : String) : Bool :=
  p.data.isPrefixOf s.data

/-! ### The read-only statement guard of `execute_sql` -/

/-- `allowed_keywords` in `execute_sql`. -/
def allowedKeywords : List String :=
  ["SELECT", "SHOW", "DESCRIBE", "DESC", "EXPLAIN", "WITH"]

/-- The guard in `execute_sql`:
`query_upper = query.strip().upper()` followed by
`any(query_upper.startswith(keyword) for keyword in allowed_keywords)`. -/
def guardAllows (query : String) : Bool :=
  allowedKeywords.any (fun kw => strStarts (pyUpper (pyStrip query)) kw)

/-- The rejection text returned by `execute_sql` when the guard fires. -/
def rejectionText : String :=
  "Error: Only read-only queries (SELECT, SHOW, DESCRIBE, EXPLAIN) are allowed"

example : guardAllows "  select 1" = true := by decide
example : guardAllows "DROP TABLE t" = false := by decide
example : guardAllows "DELETE FROM t" = false := by decide
example : guardAllows "with cte as (select 1) select * from cte" = true := by decide

/-! ### Driver values and result rows

A `ResultRow` (a `DictCursor` row) is an ordered association list from
column name to scalar value.  `pyStr` is Python `str()` on the scalar
values the driver can produce. -/

inductive PyValue where
  | int (n : Int)
  | str (s : String)
  | nullv
deriving DecidableEq, Repr

/-- Python `str(v)` on driver scalars (`str(None) = "None"`). -/
def pyStr : PyValue → String
  | .int n => toString n
  | .str s => s
  | .nullv => "None"

/-- One result row: ordered mapping column name → value. -/
abbrev Row := List (String × PyValue)

/-- Python `row[col]` as a partial lookup (`none` models a `KeyError`),
also used for `row.get(col, default)`. -/
def rowGet (row : Row) (col : String) : Option PyValue :=
  (row.find? (fun p => p.fst == col)).map Prod.snd

/-- `str(row.get(col, ''))` in the formatter of `execute_sql`: a missing
column renders as the empty string. -/
def cellText (row : Row) (col : String) : String :=
  match rowGet row col with
  | some v => pyStr v
  | none => ""

/-! ### Configuration loading (`ConfigurationManager._load_configuration`) -/

/-- Valid digit run for Python `int(str)`: digits with single
underscores allowed only between digits (`"1_0"` ok, `"_1"`, `"1_"`,
`"1__0"` rejected).  Characterised as: nonempty, every char a digit or
underscore, first and last are digits, no two adjacent underscores. -/
def validPyDigits (cs : List Char) : Bool :=
  (!cs.isEmpty)
    && cs.all (fun c => c.isDigit || c == '_')
    && (cs.headD '0').isDigit
    && (cs.getLastD '0').isDigit
    && noAdjacentUnderscores cs
where
  noAdjacentUnderscores : List Char → Bool
  | [] => true
  | [_] => true
  | a :: b :: rest => !(a == '_' && b == '_') && noAdjacentUnderscores (b :: rest)

/-- The numeric value of a valid digit run (underscores ignored). -/
def pyDigitsVal (cs : List Char) : Nat :=
  (cs.filter (fun c => c != '_')).foldl (fun acc c => acc * 10 + (c.toNat - 48)) 0

/-- Python `int(s)` (base 10): optional surrounding whitespace, optional
sign, then a valid digit run; `none` models the `ValueError` raised on a
non-numeric string. -/
def pyIntOfString (s : String) : Option Int :=
  match (pyStrip s).data with
  | '+' :: rest => if validPyDigits rest then some (pyDigitsVal rest) else none
  | '-' :: rest => if validPyDigits rest then some (-(pyDigitsVal rest : Int)) else none
  | rest => if validPyDigits rest then some (pyDigitsVal rest) else none

example : pyIntOfString "3306" = some 3306 := by decide
example : pyIntOfString " -42 " = some (-42) := by decide
example : pyIntOfString "abc" = none := by decide
example : pyIntOfString "" = none := by decide
example : pyIntOfString "33o6" = none := by decide

/-- The configuration snapshot held by `ConfigurationManager.config`. -/
structure DbConfig where
  host : String
  port : Int
  user : String
  password : String
  database : String
deriving DecidableEq, Repr

/-- The process environment: variable name → value if set. -/
abbrev Env := String → Option String

/-- Python `os.getenv(name, default)`. -/
def getenvD (env : Env) (name default : String) : String :=
  (env name).getD default

/-- `ConfigurationManager._load_configuration`: reads the five
`MARIADB_*` variables with their defaults; `int()` on the port value
raises (modelled as `Except.error`) when the value is not numeric. -/
def loadConfiguration (env : Env) : Except String DbConfig :=
  match pyIntOfString (getenvD env "MARIADB_PORT" "3306") with
  | none =>
      Except.error ("invalid literal for int() with base 10: " ++
        getenvD env "MARIADB_PORT" "3306")
  | some p =>
      Except.ok
        { host := getenvD env "MARIADB_HOST" "localhost"
          port := p
          user := getenvD env "MARIADB_USER" "root"
          password := getenvD env "MARIADB_PASSWORD" ""
          database := getenvD env "MARIADB_DATABASE" "mysql" }

/-! ### Connection gateway (`MariaDBConnection`) — sequential model

The gateway owns the pool handle.  Pools are identified by their index
in a ledger `createdPools` that records, for every pool ever
constructed, the configuration snapshot it was built from.  `executed`
records every statement handed to the driver, in order. -/

structure GatewayState where
  /-- `self.pool` (the handle; `some i` points into `createdPools`). -/
  pool : Option Nat
  /-- Ledger: one entry per pool ever constructed, with its snapshot. -/
  createdPools : List DbConfig
  /-- Pools whose `close()`/`wait_closed()` has run. -/
  closedPools : List Nat
  /-- Statements handed to the driver, in order. -/
  executed : List String
  /-- `self.host/port/user/password/database`, copied from the
  configuration manager at construction and on `reload_config`. -/
  connParams : DbConfig
deriving DecidableEq, Repr

/-- `MariaDBConnection.connect()`: create the pool from the current
connection parameters only when no pool handle exists. -/
def connect (st : GatewayState) : GatewayState :=
  match st.pool with
  | some _ => st
  | none =>
      { st with
        pool := some st.createdPools.length
        createdPools := st.createdPools ++ [st.connParams] }

/-- The driver: a statement either raises (`Except.error`), executes
with no result descriptor (`Except.ok none`, e.g. `USE`), or produces a
result descriptor together with all its rows (`Except.ok (some rows)`). -/
abbrev Driver := String → Except String (Option (List Row))

/-- `MariaDBConnection.execute_query`: ensure connected, run the
statement; with a result descriptor fetch all rows, otherwise return
the empty list. -/
def executeQuery (driver : Driver) (st : GatewayState) (query : String) :
    Except String (List Row) × GatewayState :=
  let st1 := connect st
  let st2 := { st1 with executed := st1.executed ++ [query] }
  match driver query with
  | .error e => (.error e, st2)
  | .ok none => (.ok [], st2)
  | .ok (some rows) => (.ok rows, st2)

/-- `MariaDBConnection.close()`: close and drain the pool if one exists
(the handle itself is not cleared here — the caller does that). -/
def closeConn (st : GatewayState) : GatewayState :=
  match st.pool with
  | none => st
  | some p => { st with closedPools := st.closedPools ++ [p] }

/-! ### `reload_config` (composite reload operation) -/

/-- Observable steps of `reload_config`, in execution order. -/
inductive ReloadEvent where
  | closedPool (p : Nat)
  | configReloaded
  | clearedHandle
deriving DecidableEq, Repr

/-- The module state `reload_config` touches: the gateway and the
configuration manager's snapshot. -/
structure World where
  gw : GatewayState
  config : DbConfig
deriving DecidableEq, Repr

/-- The `reload_config` tool: close the old pool, reload the
configuration snapshot, copy the parameters and clear the pool handle;
any exception is converted to an error string (the close having already
happened). -/
def reloadConfig (env : Env) (w : World) : String × World × List ReloadEvent :=
  let closeEvents : List ReloadEvent :=
    match w.gw.pool with
    | some p => [ReloadEvent.closedPool p]
    | none => []
  let gw1 := closeConn w.gw
  match loadConfiguration env with
  | .error e =>
      ("Error reloading configuration: " ++ e, ⟨gw1, w.config⟩, closeEvents)
  | .ok c =>
      ("Configuration reloaded successfully. New connection will be established on next database operation.",
        ⟨{ gw1 with connParams := c, pool := none }, c⟩,
        closeEvents ++ [ReloadEvent.configReloaded, ReloadEvent.clearedHandle])

/-! ### Boundary operation `list_databases` -/

/-- The success text of `list_databases`. -/
def formatDatabases (vals : List PyValue) : String :=
  "Available databases (" ++ toString vals.length ++ "):\n" ++
    String.intercalate "\n" (vals.map (fun v => "- " ++ pyStr v))

/-- `[row[col] for row in rows]`: read one column of every row in
order; `none` models the `KeyError` raised at the first missing key. -/
def collectColumn (col : String) : List Row → Option (List PyValue)
  | [] => some []
  | row :: rest =>
      match rowGet row col, collectColumn col rest with
      | some v, some vs => some (v :: vs)
      | _, _ => none

/-- `list_databases`: run `SHOW DATABASES`, read the `Database` column
of each row (a missing column is a `KeyError`, whose `str()` is the
quoted key), and render; every exception is converted to
`Error listing databases: <cause>`. -/
def listDatabases (driver : Driver) (st : GatewayState) : String × GatewayState :=
  match executeQuery driver st "SHOW DATABASES" with
  | (.error e, st1) => ("Error listing databases: " ++ e, st1)
  | (.ok rows, st1) =>
      match collectColumn "Database" rows with
      | none => ("Error listing databases: " ++ "\x27Database\x27", st1)
      | some vals => (formatDatabases vals, st1)

/-! ### The result formatter of `execute_sql` -/

/-- `list(results[0].keys())`. -/
def columnsOf (results : List Row) : List String :=
  (results.headD []).map Prod.fst

/-- One data row: `" | ".join(str(row.get(col, '')) for col in columns)`. -/
def rowLine (columns : List String) (row : Row) : String :=
  String.intercalate " | " (columns.map (fun col => cellText row col))

/-- The truncation note emitted when more than 100 rows exist. -/
def truncNote (n : Nat) : String :=
  "\n... and " ++ toString (n - 100) ++ " more rows (truncated for display)"

/-- The table formatter of `execute_sql` for a non-empty result list:
header, dash separator sized to the column names, the first 100 data
rows (missing values as empty string), the truncation note when more
than 100 rows exist, and the total-row-count footer. -/
def formatResults (results : List Row) : String :=
  let columns := columnsOf results
  let header := String.intercalate " | " columns
  let separator :=
    String.intercalate " | " (columns.map (fun col => String.mk (List.replicate col.length '-')))
  let dataBlock :=
    String.join ((results.take 100).map (fun row => rowLine columns row ++ "\n"))
  "Query Results:\n\n" ++ (header ++ "\n" ++ separator ++ "\n") ++ dataBlock ++
    (if 100 < results.length then truncNote results.length else "") ++
    ("\nTotal rows: " ++ toString results.length)

/-- The data lines of the formatted output (spec-side decomposition:
the rows actually rendered). -/
def dataLines (results : List Row) : List String :=
  (results.take 100).map (fun row => rowLine (columnsOf results) row)

/-! ### Boundary operation `execute_sql` -/

/-- The main-query part of `execute_sql`, after the guard and the
optional database switch. -/
def runSelectedQuery (driver : Driver) (st : GatewayState) (query : String) :
    String × GatewayState :=
  match executeQuery driver st query with
  | (.error e, st1) => ("Error executing SQL: " ++ e, st1)
  | (.ok results, st1) =>
      if results.isEmpty then ("Query executed successfully. No results returned.", st1)
      else (formatResults results, st1)

/-- `execute_sql`: guard first; then the `USE` database switch when a
database is supplied; then the query itself; exceptions become
`Error executing SQL: <cause>`. -/
def executeSql (driver : Driver) (st : GatewayState) (query : String)
    (database : Option String) : String × GatewayState :=
  if guardAllows query then
    match database with
    | some db =>
        match executeQuery driver st ("USE `" ++ db ++ "`") with
        | (.error e, st1) => ("Error executing SQL: " ++ e, st1)
        | (.ok _, st1) => runSelectedQuery driver st1 query
    | none => runSelectedQuery driver st query
  else (rejectionText, st)

/-! ### Identifier interpolation in `list_tables` / `get_table_schema` -/

/-- The statement built by `list_tables`. -/
def listTablesQuery : Option String → String
  | some database => "SHOW TABLES FROM `" ++ database ++ "`"
  | none => "SHOW TABLES"

/-- `full_table_name` in `get_table_schema`. -/
def fullTableName (tableName : String) (database : Option String) : String :=
  match database with
  | some db => "`" ++ db ++ "`.`" ++ tableName ++ "`"
  | none => "`" ++ tableName ++ "`"

/-- The `DESCRIBE` statement built by `get_table_schema`. -/
def describeQuery (tableName : String) (database : Option String) : String :=
  "DESCRIBE " ++ fullTableName tableName database

/-- The `SHOW TABLE STATUS` statement built by `get_table_schema`. -/
def tableStatusQuery (tableName : String) (database : Option String) : String :=
  match database with
  | some db => "SHOW TABLE STATUS FROM `" ++ db ++ "` LIKE \x27" ++ tableName ++ "\x27"
  | none => "SHOW TABLE STATUS LIKE \x27" ++ tableName ++ "\x27"

/-- Modelled from the spec: the identifier-quoting helper the spec
prescribes ("quoted/escaped as identifiers", "double embedded
backtick/quote characters") — no such helper exists in the source; this
definition follows the spec's words, for comparison with the statements
the source actually builds. -/
def specQuoteIdentifier (name : String) : String :=
  "`" ++
    String.mk (name.data.flatMap
      (fun c => if c = Char.ofNat 96 then [Char.ofNat 96, Char.ofNat 96] else [c])) ++
    "`"

/-! ### Boundary operation `list_tables` -/

/-- `list(row.values())[0]` for every row, in order; an empty row is an
`IndexError`, whose `str()` is `list index out of range`. -/
def collectFirstValues : List Row → Except String (List PyValue)
  | [] => Except.ok []
  | row :: rest =>
      match row.head? with
      | none => Except.error "list index out of range"
      | some p =>
          match collectFirstValues rest with
          | Except.error e => Except.error e
          | Except.ok vs => Except.ok (p.2 :: vs)

/-- `db_name = database or "current database"`. -/
def dbNameText (database : Option String) : String :=
  database.getD "current database"

/-- The no-tables text of `list_tables`. -/
def noTablesText (database : Option String) : String :=
  "No tables found in " ++ dbNameText database

/-- The success text of `list_tables`. -/
def formatTables (database : Option String) (tables : List PyValue) : String :=
  "Tables in " ++ dbNameText database ++ " (" ++ toString tables.length ++ "):\n" ++
    String.intercalate "\n" (tables.map (fun t => "- " ++ pyStr t))

/-- `list_tables`: run the (possibly database-qualified) `SHOW TABLES`,
read the first column of every row; every exception is converted to
`Error listing tables: <cause>`. -/
def listTables (driver : Driver) (st : GatewayState) (database : Option String) :
    String × GatewayState :=
  match executeQuery driver st (listTablesQuery database) with
  | (.error e, st1) => ("Error listing tables: " ++ e, st1)
  | (.ok rows, st1) =>
      if rows.isEmpty then (noTablesText database, st1)
      else
        match collectFirstValues rows with
        | .error e => ("Error listing tables: " ++ e, st1)
        | .ok tables => (formatTables database tables, st1)

/-! ### Boundary operation `get_table_schema` -/

/-- Python truthiness of a driver scalar. -/
def pyTruthy : PyValue → Bool
  | .int n => n != 0
  | .str s => !s.isEmpty
  | .nullv => false

/-- `v or ''` in Python: falsy values degrade to the empty string. -/
def pyOrEmpty (v : PyValue) : PyValue :=
  if pyTruthy v then v else .str ""

/-- `row[col]` with the `KeyError` text (`str(KeyError(col))` is the
quoted key). -/
def pyItem (row : Row) (col : String) : Except String PyValue :=
  match rowGet row col with
  | some v => Except.ok v
  | none => Except.error ("\x27" ++ col ++ "\x27")

/-- `row.get(col, default)`. -/
def rowGetD (row : Row) (col : String) (default : PyValue) : PyValue :=
  (rowGet row col).getD default

/-- One Markdown row of the schema table: `Field/Type/Null` raw,
`Key/Default/Extra` with the `or ''` fallback; a missing key raises. -/
def describeLine (row : Row) : Except String String := do
  let f ← pyItem row "Field"
  let t ← pyItem row "Type"
  let n ← pyItem row "Null"
  let k ← pyItem row "Key"
  let d ← pyItem row "Default"
  let x ← pyItem row "Extra"
  pure ("| " ++ pyStr f ++ " | " ++ pyStr t ++ " | " ++ pyStr n ++ " | " ++
    pyStr (pyOrEmpty k) ++ " | " ++ pyStr (pyOrEmpty d) ++ " | " ++
    pyStr (pyOrEmpty x) ++ " |\n")

/-- The schema rows, concatenated in order; fails at the first missing
key, as the Python loop does. -/
def buildSchemaLines : List Row → Except String String
  | [] => Except.ok ""
  | row :: rest =>
      match describeLine row with
      | Except.error e => Except.error e
      | Except.ok line =>
          match buildSchemaLines rest with
          | Except.error e => Except.error e
          | Except.ok restS => Except.ok (line ++ restS)

/-- The fixed header of the schema output. -/
def schemaHeader (tableName : String) : String :=
  "Schema for table \x27" ++ tableName ++ "\x27:\n\n" ++
    "| Field | Type | Null | Key | Default | Extra |\n" ++
    "|-------|------|------|-----|---------|-------|\n"

/-- The not-found text of `get_table_schema`. -/
def notFoundText (tableName : String) : String :=
  "Table \x27" ++ tableName ++ "\x27 not found"

/-- The `Table Info` block rendered from the first
`SHOW TABLE STATUS` row (`status.get(key, 'N/A')`). -/
def tableInfoBlock (status : Row) : String :=
  "\nTable Info:\n" ++
    "- Engine: " ++ pyStr (rowGetD status "Engine" (.str "N/A")) ++ "\n" ++
    "- Rows: " ++ pyStr (rowGetD status "Rows" (.str "N/A")) ++ "\n" ++
    "- Data Length: " ++ pyStr (rowGetD status "Data_length" (.str "N/A")) ++ " bytes\n" ++
    "- Auto Increment: " ++ pyStr (rowGetD status "Auto_increment" (.str "N/A")) ++ "\n" ++
    "- Create Time: " ++ pyStr (rowGetD status "Create_time" (.str "N/A")) ++ "\n" ++
    "- Comment: " ++ pyStr (rowGetD status "Comment" (.str "N/A")) ++ "\n"

/-- `get_table_schema`: `DESCRIBE`, not-found check, the Markdown rows,
then `SHOW TABLE STATUS` and the info block when it returns a row;
every exception is converted to `Error getting table schema: <cause>`. -/
def getTableSchema (driver : Driver) (st : GatewayState) (tableName : String)
    (database : Option String) : String × GatewayState :=
  match executeQuery driver st (describeQuery tableName database) with
  | (.error e, st1) => ("Error getting table schema: " ++ e, st1)
  | (.ok results, st1) =>
      if results.isEmpty then (notFoundText tableName, st1)
      else
        match buildSchemaLines results with
        | .error e => ("Error getting table schema: " ++ e, st1)
        | .ok lines =>
            match executeQuery driver st1 (tableStatusQuery tableName database) with
            | (.error e, st2) => ("Error getting table schema: " ++ e, st2)
            | (.ok statusResults, st2) =>
                match statusResults with
                | [] => (schemaHeader tableName ++ lines, st2)
                | status :: _ =>
                    (schemaHeader tableName ++ lines ++ tableInfoBlock status, st2)

/-! ### Concurrent `connect` — cooperative interleaving model

`connect` reads `self.pool is None` and then suspends at
`await aiomysql.create_pool(...)`; the assignment `self.pool = ...`
runs when the await resumes.  Each concurrent caller is a task with two
atomic phases separated by that suspension point:

* `start` → the `is None` check: with a pool present the call returns
  at once (`done`); with no pool the task moves to `creating` and
  suspends in `create_pool`;
* `creating` → `create_pool` returns a fresh pool and the task
  publishes it (`self.pool = ...`), unconditionally overwriting the
  handle, then finishes.

Nothing in the source closes a pool that loses this race. -/

inductive TaskPhase where
  | start
  | creating
  | done
deriving DecidableEq, Repr

/-- Shared state for `n` concurrent `connect` callers; pools are
numbered by creation order. -/
structure ConcState where
  pool : Option Nat
  nextPool : Nat
  created : List Nat
  closed : List Nat
  tasks : List TaskPhase
deriving DecidableEq, Repr

/-- Run one atomic phase of task `i` (out-of-range or finished tasks do
nothing). -/
def stepTask (st : ConcState) (i : Nat) : ConcState :=
  match st.tasks[i]? with
  | none => st
  | some .start =>
      match st.pool with
      | some _ => { st with tasks := st.tasks.set i .done }
      | none => { st with tasks := st.tasks.set i .creating }
  | some .creating =>
      { st with
        pool := some st.nextPool
        nextPool := st.nextPool + 1
        created := st.created ++ [st.nextPool]
        tasks := st.tasks.set i .done }
  | some .done => st

/-- Run a schedule: the cooperative scheduler picks, at each step, which
task runs its next atomic phase. -/
def runSched (st : ConcState) (sched : List Nat) : ConcState :=
  sched.foldl stepTask st

/-- Initial state: `n` callers about to enter `connect`, no pool. -/
def initConc (n : Nat) : ConcState :=
  ⟨none, 0, [], [], List.replicate n .start⟩

/-- The schedule in which each caller runs to completion before the
next starts (sequential, non-interleaved execution). -/
def serialSched (n : Nat) : List Nat :=
  (List.range n).flatMap (fun i => [i, i])

/-- All callers have finished. -/
def allDone (st : ConcState) : Bool :=
  st.tasks.all (fun t => t == .done)

/-- Every pool ever constructed is either the retained one or was
closed — i.e. no pool leaked. -/
def noLeakedPools (st : ConcState) : Bool :=
  st.created.all (fun p => st.pool == some p || st.closed.contains p)

/-! ### Concrete objects used to instantiate the theorems -/

/-- The configuration produced by an empty environment. -/
def defaultConfig : DbConfig :=
  { host := "localhost", port := 3306, user := "root", password := "", database := "mysql" }

/-- A fresh gateway: no pool, nothing executed. -/
def initialState : GatewayState :=
  { pool := none, createdPools := [], closedPools := [], executed := [], connParams := defaultConfig }

/-- A driver on which every statement executes with no result descriptor. -/
def noopDriver : Driver := fun _ => Except.ok none

/-- A driver on which every statement raises. -/
def failingDriver : Driver := fun _ => Except.error "Lost connection to MySQL server"

/-- A driver with one result-producing statement and one
descriptor-less statement. -/
def exampleDriver : Driver := fun q =>
  if q = "SELECT 1 AS x" then Except.ok (some [[("x", PyValue.int 1)]])
  else if q = "USE test" then Except.ok none
  else Except.error "unknown statement"

/-- The empty process environment. -/
def emptyEnv : Env := fun _ => none

/-- An environment whose port variable holds a non-numeric string. -/
def badPortEnv : Env :=
  fun name => if name = "MARIADB_PORT" then some "not-a-number" else none

/-! ### C1 — the read-only guard -/

/-- C1: the guard in `execute_sql` allows a statement S iff the
whitespace-trimmed, case-folded form of S begins with one of the
prefixes SELECT, SHOW, DESCRIBE, DESC, EXPLAIN, WITH; `"  select 1"` is
allowed, `"DROP TABLE t"` and `"DELETE FROM t"` are rejected; and every
rejected statement yields the distinct rejection text with the gateway
left untouched, before any query execution. -/
theorem guard_allows_iff_allowed_keyword :
    (∀ S : String, guardAllows S = true ↔
      ∃ kw ∈ allowedKeywords, strStarts (pyUpper (pyStrip S)) kw = true) ∧
    guardAllows "  select 1" = true ∧
    guardAllows "DROP TABLE t" = false ∧
    guardAllows "DELETE FROM t" = false ∧
    (∀ (driver : Driver) (st : GatewayState) (S : String) (db : Option String),
      guardAllows S = false → executeSql driver st S db = (rejectionText, st)) := by
  refine ⟨?_, by decide, by decide, by decide, ?_⟩
  · intro S
    simp [guardAllows, List.any_eq_true]
  · intro driver st S db h
    simp [executeSql, h]

/-- Witness for C1 at the concrete statement `"DELETE FROM t"`. -/
theorem guard_allows_iff_allowed_keyword_witness :
    executeSql noopDriver initialState "DELETE FROM t" none = (rejectionText, initialState) :=
  guard_allows_iff_allowed_keyword.2.2.2.2 noopDriver initialState "DELETE FROM t" none
    (by decide)

/-! ### C10 — rejection happens before any database action -/

/-- C10: when the guard rejects, `execute_sql` returns the rejection
text and the gateway state is exactly as before the call: no pool
created, no `USE` issued (even with a database argument), nothing
executed. -/
theorem execute_sql_rejection_no_side_effects (driver : Driver) (st : GatewayState)
    (query : String) (database : Option String) (h : guardAllows query = false) :
    executeSql driver st query database = (rejectionText, st) ∧
    (executeSql driver st query database).2.pool = st.pool ∧
    (executeSql driver st query database).2.createdPools = st.createdPools ∧
    (executeSql driver st query database).2.executed = st.executed := by
  simp [executeSql, h]

/-- Witness for C10 at `"DROP TABLE t"` with a database argument
supplied. -/
theorem execute_sql_rejection_no_side_effects_witness :
    executeSql noopDriver initialState "DROP TABLE t" (some "mydb") =
      (rejectionText, initialState) :=
  (execute_sql_rejection_no_side_effects noopDriver initialState "DROP TABLE t" (some "mydb")
    (by decide)).1

/-! ### C8 — sequential idempotence of `connect` -/

/-- C8: with a pool present, `connect` changes nothing and constructs
no pool; with no pool, it constructs exactly one from the current
connection-parameter snapshot, and calling it again changes nothing. -/
theorem connect_idempotent (st : GatewayState) :
    (∀ p, st.pool = some p → connect st = st) ∧
    (st.pool = none →
      (connect st).pool = some st.createdPools.length ∧
      (connect st).createdPools = st.createdPools ++ [st.connParams] ∧
      connect (connect st) = connect st) := by
  constructor
  · intro p hp
    simp [connect, hp]
  · intro hn
    simp [connect, hn]

/-- Witness for C8 at the fresh gateway. -/
theorem connect_idempotent_witness :
    (connect initialState).pool = some initialState.createdPools.length ∧
    (connect initialState).createdPools = initialState.createdPools ++ [initialState.connParams] ∧
    connect (connect initialState) = connect initialState :=
  (connect_idempotent initialState).2 rfl

/-! ### C4 — `execute_query` result semantics -/

/-- C4: with a result descriptor all rows are returned; with no
descriptor the result is the empty sequence, not an error; and a
successful result is never partial — it is the full row list of the
driver, or empty for a descriptor-less statement. -/
theorem execute_query_outcomes (driver : Driver) (st : GatewayState) (query : String) :
    (driver query = Except.ok none → (executeQuery driver st query).1 = Except.ok []) ∧
    (∀ rows, driver query = Except.ok (some rows) →
      (executeQuery driver st query).1 = Except.ok rows) ∧
    (∀ rows, (executeQuery driver st query).1 = Except.ok rows →
      driver query = Except.ok (some rows) ∨ (rows = [] ∧ driver query = Except.ok none)) := by
  cases hd : driver query with
  | error e =>
    refine ⟨fun h => Except.noConfusion h, fun rows h => Except.noConfusion h,
      fun rows h => ?_⟩
    simp [executeQuery, hd] at h
  | ok o =>
    cases o with
    | none =>
      refine ⟨fun _ => by simp [executeQuery, hd], fun rows h => ?_, fun rows h => ?_⟩
      · injection h with h1
        exact Option.noConfusion h1
      · simp only [executeQuery, hd] at h
        injection h with h1
        subst h1
        exact Or.inr ⟨rfl, rfl⟩
    | some rows0 =>
      refine ⟨fun h => ?_, fun rows h => ?_, fun rows h => ?_⟩
      · injection h with h1
        exact Option.noConfusion h1
      · injection h with h1
        injection h1 with h2
        subst h2
        simp [executeQuery, hd]
      · simp only [executeQuery, hd] at h
        injection h with h1
        subst h1
        exact Or.inl rfl

/-- Witness for C4: `USE test` yields the empty sequence,
`SELECT 1 AS x` yields exactly one row `{x: 1}`. -/
theorem execute_query_outcomes_witness :
    (executeQuery exampleDriver initialState "USE test").1 = Except.ok [] ∧
    (executeQuery exampleDriver initialState "SELECT 1 AS x").1 =
      Except.ok [[("x", PyValue.int 1)]] :=
  ⟨(execute_query_outcomes exampleDriver initialState "USE test").1 rfl,
   (execute_query_outcomes exampleDriver initialState "SELECT 1 AS x").2.1 _ rfl⟩

/-! ### C5 — port validation in configuration loading -/

/-- C5: a set but non-numeric port value makes configuration loading
raise (an error value, no silent coercion and no fallback); an unset
port variable yields the default port 3306. -/
theorem load_configuration_port (env : Env) :
    (∀ s, env "MARIADB_PORT" = some s → pyIntOfString s = none →
      ∃ e, loadConfiguration env = Except.error e) ∧
    (env "MARIADB_PORT" = none →
      ∃ c, loadConfiguration env = Except.ok c ∧ c.port = 3306) := by
  constructor
  · intro s hs hn
    refine ⟨"invalid literal for int() with base 10: " ++ s, ?_⟩
    simp [loadConfiguration, getenvD, hs, hn]
  · intro hs
    have hp : pyIntOfString "3306" = some 3306 := by decide
    refine ⟨{ host := getenvD env "MARIADB_HOST" "localhost", port := 3306,
              user := getenvD env "MARIADB_USER" "root",
              password := getenvD env "MARIADB_PASSWORD" "",
              database := getenvD env "MARIADB_DATABASE" "mysql" }, ?_, rfl⟩
    simp [loadConfiguration, getenvD, hs, hp]

/-- Witness for C5 at a non-numeric port environment and at the empty
environment. -/
theorem load_configuration_port_witness :
    (∃ e, loadConfiguration badPortEnv = Except.error e) ∧
    (∃ c, loadConfiguration emptyEnv = Except.ok c ∧ c.port = 3306) :=
  ⟨(load_configuration_port badPortEnv).1 "not-a-number" rfl (by decide),
   (load_configuration_port emptyEnv).2 rfl⟩

/-! ### C7 — the composite reload operation -/

/-- C7: `reload_config` performs close-old-pool, then
reload-configuration, then clear-pool-handle, in that order (the event
trace); afterwards the handle is cleared and both the configuration
manager and the connection parameters hold the freshly loaded snapshot;
with no pool the close step is a no-op and the call is safe. -/
theorem reload_config_order (env : Env) (w : World) (c : DbConfig)
    (h : loadConfiguration env = Except.ok c) :
    ((reloadConfig env w).2.2 =
      (match w.gw.pool with
        | some p => [ReloadEvent.closedPool p]
        | none => []) ++ [ReloadEvent.configReloaded, ReloadEvent.clearedHandle]) ∧
    (reloadConfig env w).2.1.gw.pool = none ∧
    (reloadConfig env w).2.1.config = c ∧
    (reloadConfig env w).2.1.gw.connParams = c ∧
    (w.gw.pool = none →
      (reloadConfig env w).2.1.gw.closedPools = w.gw.closedPools ∧
      (reloadConfig env w).2.2 = [ReloadEvent.configReloaded, ReloadEvent.clearedHandle]) ∧
    (∀ p, w.gw.pool = some p →
      (reloadConfig env w).2.1.gw.closedPools = w.gw.closedPools ++ [p]) := by
  cases hp : w.gw.pool with
  | none =>
    simp [reloadConfig, closeConn, h, hp]
  | some p =>
    simp [reloadConfig, closeConn, h, hp]

/-- Witness for C7 at the fresh world (no pool) under the empty
environment. -/
theorem reload_config_order_witness :
    (reloadConfig emptyEnv ⟨initialState, defaultConfig⟩).2.1.gw.pool = none ∧
    (reloadConfig emptyEnv ⟨initialState, defaultConfig⟩).2.2 =
      [ReloadEvent.configReloaded, ReloadEvent.clearedHandle] :=
  ⟨(reload_config_order emptyEnv ⟨initialState, defaultConfig⟩ defaultConfig rfl).2.1,
   ((reload_config_order emptyEnv ⟨initialState, defaultConfig⟩ defaultConfig rfl).2.2.2.2.1
      rfl).2⟩

/-! ### C2 — `list_databases` failure text -/

/-- A prefix of a character list is still a prefix after extending on
the right. -/
lemma isPrefixOf_of_extend {l m t : List Char} (h : l.isPrefixOf m = true) :
    l.isPrefixOf (m ++ t) = true := by
  induction l generalizing m with
  | nil => simp
  | cons a as ih =>
    cases m with
    | nil => simp at h
    | cons b bs =>
      simp only [List.cons_append, List.isPrefixOf_cons₂, Bool.and_eq_true, beq_iff_eq] at h ⊢
      exact ⟨h.1, ih h.2⟩

/-- `strHasPre` is stable under appending to the scanned string. -/
lemma strHasPre_mono {p m : String} (q : String) (h : strHasPre p m = true) :
    strHasPre p (m ++ q) = true := by
  unfold strHasPre at h ⊢
  rw [String.data_append]
  exact isPrefixOf_of_extend h

/-- Every outcome of the main-query part of `execute_sql` is the
no-results text, a formatted table, or an `Error executing SQL:` text. -/
lemma runSelectedQuery_shapes (driver : Driver) (st : GatewayState) (query : String) :
    (runSelectedQuery driver st query).1 =
        "Query executed successfully. No results returned." ∨
      (∃ results, (runSelectedQuery driver st query).1 = formatResults results) ∨
      strHasPre "Error executing SQL:" (runSelectedQuery driver st query).1 = true := by
  have hpre : ∀ e : String,
      strHasPre "Error executing SQL:" ("Error executing SQL: " ++ e) = true :=
    fun e => strHasPre_mono e (by decide)
  cases hd : driver query with
  | error e =>
    refine Or.inr (Or.inr ?_)
    have hout : (runSelectedQuery driver st query).1 = "Error executing SQL: " ++ e := by
      simp [runSelectedQuery, executeQuery, hd]
    exact hout ▸ hpre e
  | ok o =>
    cases o with
    | none =>
      exact Or.inl (by simp [runSelectedQuery, executeQuery, hd])
    | some results =>
      cases hres : results.isEmpty with
      | true =>
        exact Or.inl (by simp [runSelectedQuery, executeQuery, hd, hres])
      | false =>
        exact Or.inr (Or.inl ⟨results, by simp [runSelectedQuery, executeQuery, hd, hres]⟩)

/-- C2: every boundary operation catches every error and converts it to
a text with its documented prefix, never raising: `list_databases`,
`list_tables`, `get_table_schema`, `execute_sql` and `reload_config`
each return either one of their success texts or a string beginning
with their documented error prefix; in particular a driver failure `e`
under `list_databases` yields exactly `Error listing databases: <e>`,
and under `list_tables` exactly `Error listing tables: <e>`. -/
theorem boundary_error_conversion (driver : Driver) (st : GatewayState) (env : Env)
    (w : World) (tableName : String) (database : Option String) (query : String) :
    (∀ e, driver "SHOW DATABASES" = Except.error e →
      (listDatabases driver st).1 = "Error listing databases: " ++ e) ∧
    ((∃ vals, (listDatabases driver st).1 = formatDatabases vals) ∨
      strHasPre "Error listing databases:" (listDatabases driver st).1 = true) ∧
    (∀ e, driver (listTablesQuery database) = Except.error e →
      (listTables driver st database).1 = "Error listing tables: " ++ e) ∧
    ((listTables driver st database).1 = noTablesText database ∨
      (∃ tables, (listTables driver st database).1 = formatTables database tables) ∨
      strHasPre "Error listing tables:" (listTables driver st database).1 = true) ∧
    ((getTableSchema driver st tableName database).1 = notFoundText tableName ∨
      (∃ s, (getTableSchema driver st tableName database).1 = schemaHeader tableName ++ s) ∨
      strHasPre "Error getting table schema:"
        (getTableSchema driver st tableName database).1 = true) ∧
    ((executeSql driver st query database).1 = rejectionText ∨
      (executeSql driver st query database).1 =
        "Query executed successfully. No results returned." ∨
      (∃ results, (executeSql driver st query database).1 = formatResults results) ∨
      strHasPre "Error executing SQL:" (executeSql driver st query database).1 = true) ∧
    ((reloadConfig env w).1 =
        "Configuration reloaded successfully. New connection will be established on next database operation." ∨
      strHasPre "Error reloading configuration:" (reloadConfig env w).1 = true) := by
  have hpreDb : ∀ e : String,
      strHasPre "Error listing databases:" ("Error listing databases: " ++ e) = true :=
    fun e => strHasPre_mono e (by decide)
  have hpreTb : ∀ e : String,
      strHasPre "Error listing tables:" ("Error listing tables: " ++ e) = true :=
    fun e => strHasPre_mono e (by decide)
  have hpreSc : ∀ e : String,
      strHasPre "Error getting table schema:" ("Error getting table schema: " ++ e) = true :=
    fun e => strHasPre_mono e (by decide)
  have hpreRl : ∀ e : String,
      strHasPre "Error reloading configuration:"
        ("Error reloading configuration: " ++ e) = true :=
    fun e => strHasPre_mono e (by decide)
  refine ⟨?_, ?_, ?_, ?_, ?_, ?_, ?_⟩
  · -- list_databases, exact failure text
    intro e he
    simp [listDatabases, executeQuery, he]
  · -- list_databases, success or documented prefix
    cases hd : driver "SHOW DATABASES" with
    | error e =>
      refine Or.inr ?_
      have hout : (listDatabases driver st).1 = "Error listing databases: " ++ e := by
        simp [listDatabases, executeQuery, hd]
      exact hout ▸ hpreDb e
    | ok o =>
      cases o with
      | none =>
        exact Or.inl ⟨[], by simp [listDatabases, executeQuery, hd, collectColumn]⟩
      | some rows =>
        cases hm : collectColumn "Database" rows with
        | none =>
          refine Or.inr ?_
          have hout : (listDatabases driver st).1 =
              "Error listing databases: " ++ "\x27Database\x27" := by
            simp [listDatabases, executeQuery, hd, hm]
          exact hout ▸ hpreDb "\x27Database\x27"
        | some vals =>
          exact Or.inl ⟨vals, by simp [listDatabases, executeQuery, hd, hm]⟩
  · -- list_tables, exact failure text
    intro e he
    simp [listTables, executeQuery, he]
  · -- list_tables, success or documented prefix
    cases hd : driver (listTablesQuery database) with
    | error e =>
      refine Or.inr (Or.inr ?_)
      have hout : (listTables driver st database).1 = "Error listing tables: " ++ e := by
        simp [listTables, executeQuery, hd]
      exact hout ▸ hpreTb e
    | ok o =>
      cases o with
      | none =>
        exact Or.inl (by simp [listTables, executeQuery, hd])
      | some rows =>
        cases hres : rows.isEmpty with
        | true =>
          exact Or.inl (by simp [listTables, executeQuery, hd, hres])
        | false =>
          cases hc : collectFirstValues rows with
          | error e =>
            refine Or.inr (Or.inr ?_)
            have hout : (listTables driver st database).1 =
                "Error listing tables: " ++ e := by
              simp [listTables, executeQuery, hd, hres, hc]
            exact hout ▸ hpreTb e
          | ok tables =>
            exact Or.inr (Or.inl ⟨tables,
              by simp [listTables, executeQuery, hd, hres, hc]⟩)
  · -- get_table_schema, success shapes or documented prefix
    cases hd : driver (describeQuery tableName database) with
    | error e =>
      refine Or.inr (Or.inr ?_)
      have hout : (getTableSchema driver st tableName database).1 =
          "Error getting table schema: " ++ e := by
        simp [getTableSchema, executeQuery, hd]
      exact hout ▸ hpreSc e
    | ok o =>
      cases o with
      | none =>
        exact Or.inl (by simp [getTableSchema, executeQuery, hd])
      | some results =>
        cases hres : results.isEmpty with
        | true =>
          exact Or.inl (by simp [getTableSchema, executeQuery, hd, hres])
        | false =>
          cases hb : buildSchemaLines results with
          | error e =>
            refine Or.inr (Or.inr ?_)
            have hout : (getTableSchema driver st tableName database).1 =
                "Error getting table schema: " ++ e := by
              simp [getTableSchema, executeQuery, hd, hres, hb]
            exact hout ▸ hpreSc e
          | ok lines =>
            cases hd2 : driver (tableStatusQuery tableName database) with
            | error e =>
              refine Or.inr (Or.inr ?_)
              have hout : (getTableSchema driver st tableName database).1 =
                  "Error getting table schema: " ++ e := by
                simp [getTableSchema, executeQuery, hd, hres, hb, hd2]
              exact hout ▸ hpreSc e
            | ok o2 =>
              cases o2 with
              | none =>
                exact Or.inr (Or.inl ⟨lines,
                  by simp [getTableSchema, executeQuery, hd, hres, hb, hd2]⟩)
              | some statusResults =>
                cases statusResults with
                | nil =>
                  exact Or.inr (Or.inl ⟨lines,
                    by simp [getTableSchema, executeQuery, hd, hres, hb, hd2]⟩)
                | cons status rest =>
                  refine Or.inr (Or.inl ⟨lines ++ tableInfoBlock status, ?_⟩)
                  have hout : (getTableSchema driver st tableName database).1 =
                      schemaHeader tableName ++ lines ++ tableInfoBlock status := by
                    simp [getTableSchema, executeQuery, hd, hres, hb, hd2]
                  rw [hout, String.append_assoc]
  · -- execute_sql, rejection or success shapes or documented prefix
    cases hg : guardAllows query with
    | false =>
      exact Or.inl (by simp [executeSql, hg])
    | true =>
      have hrun : ∀ st0 : GatewayState,
          (runSelectedQuery driver st0 query).1 =
              "Query executed successfully. No results returned." ∨
            (∃ results, (runSelectedQuery driver st0 query).1 = formatResults results) ∨
            strHasPre "Error executing SQL:" (runSelectedQuery driver st0 query).1 = true :=
        fun st0 => runSelectedQuery_shapes driver st0 query
      cases database with
      | none =>
        have hout : (executeSql driver st query none).1 =
            (runSelectedQuery driver st query).1 := by
          simp [executeSql, hg]
        rcases hrun st with h | h | h
        · exact Or.inr (Or.inl (hout ▸ h))
        · exact Or.inr (Or.inr (Or.inl (hout ▸ h)))
        · exact Or.inr (Or.inr (Or.inr (hout ▸ h)))
      | some db =>
        cases hu : driver ("USE `" ++ db ++ "`") with
        | error e =>
          refine Or.inr (Or.inr (Or.inr ?_))
          have hout : (executeSql driver st query (some db)).1 =
              "Error executing SQL: " ++ e := by
            simp [executeSql, hg, executeQuery, hu]
          exact hout ▸ strHasPre_mono e (by decide)
        | ok o =>
          have hout : ∃ st1, (executeSql driver st query (some db)).1 =
              (runSelectedQuery driver st1 query).1 := by
            cases o with
            | none =>
              refine ⟨{ connect st with
                executed := (connect st).executed ++ ["USE `" ++ db ++ "`"] }, ?_⟩
              simp [executeSql, hg, executeQuery, hu]
            | some rows =>
              refine ⟨{ connect st with
                executed := (connect st).executed ++ ["USE `" ++ db ++ "`"] }, ?_⟩
              simp [executeSql, hg, executeQuery, hu]
          obtain ⟨st1, hout⟩ := hout
          rcases hrun st1 with h | h | h
          · exact Or.inr (Or.inl (hout ▸ h))
          · exact Or.inr (Or.inr (Or.inl (hout ▸ h)))
          · exact Or.inr (Or.inr (Or.inr (hout ▸ h)))
  · -- reload_config, success or documented prefix
    cases hl : loadConfiguration env with
    | error e =>
      refine Or.inr ?_
      have hout : (reloadConfig env w).1 = "Error reloading configuration: " ++ e := by
        simp [reloadConfig, hl]
      exact hout ▸ hpreRl e
    | ok c =>
      exact Or.inl (by simp [reloadConfig, hl])

/-- Witness for C2: a concrete connection failure yields exactly the
documented failure texts of `list_databases` and `list_tables`. -/
theorem boundary_error_conversion_witness :
    (listDatabases failingDriver initialState).1 =
      "Error listing databases: " ++ "Lost connection to MySQL server" ∧
    (listTables failingDriver initialState none).1 =
      "Error listing tables: " ++ "Lost connection to MySQL server" :=
  ⟨(boundary_error_conversion failingDriver initialState emptyEnv
      ⟨initialState, defaultConfig⟩ "t" none "SELECT 1").1
        "Lost connection to MySQL server" rfl,
   (boundary_error_conversion failingDriver initialState emptyEnv
      ⟨initialState, defaultConfig⟩ "t" none "SELECT 1").2.2.1
        "Lost connection to MySQL server" rfl⟩

/-! ### C3 — the result formatter -/

/-- C3: for a non-empty result list of `n` rows, the formatted output
is the header block, then exactly the `min n 100` data lines (one per
rendered row, a missing column rendering as the empty string), then the
truncation note `... and <n-100> more rows (truncated for display)`
exactly when `n > 100`, and it ends with the footer `Total rows: <n>`. -/
theorem execute_sql_formatter_shape (results : List Row) (_h : results ≠ []) :
    (dataLines results).length = min results.length 100 ∧
    formatResults results =
      "Query Results:\n\n" ++
        (String.intercalate " | " (columnsOf results) ++ "\n" ++
          String.intercalate " | "
            ((columnsOf results).map (fun col => String.mk (List.replicate col.length '-'))) ++
          "\n") ++
        String.join ((dataLines results).map (fun l => l ++ "\n")) ++
        (if 100 < results.length then truncNote results.length else "") ++
        ("\nTotal rows: " ++ toString results.length) ∧
    (results.length ≤ 100 →
      (if 100 < results.length then truncNote results.length else "") = "") ∧
    (∀ row col, rowGet row col = none → cellText row col = "") := by
  refine ⟨?_, ?_, ?_, ?_⟩
  · simp [dataLines, List.length_take, Nat.min_comm]
  · simp [formatResults, dataLines, List.map_map]
    rfl
  · intro hle
    simp [Nat.not_lt_of_le hle]
  · intro row col hmiss
    simp [cellText, hmiss]

/-- Witness for C3 at a concrete 101-row result list. -/
theorem execute_sql_formatter_shape_witness :
    (dataLines (List.replicate 101 [("x", PyValue.int 1)])).length =
      min (List.replicate 101 [("x", PyValue.int 1)]).length 100 :=
  (execute_sql_formatter_shape (List.replicate 101 [("x", PyValue.int 1)])
    (by simp)).1

/-! ### C6 — identifier interpolation -/

/-- C6 counterexample: at the database name ``a`b``, `list_tables`
builds its statement without doubling the embedded backtick, so the
statement differs from the one built with the spec's identifier-quoting
rule; and `get_table_schema` interpolates the table name as a
single-quoted string value in its `SHOW TABLE STATUS` statement. -/
theorem identifier_quoting_counterexample :
    listTablesQuery (some "a`b") ≠ "SHOW TABLES FROM " ++ specQuoteIdentifier "a`b" ∧
    listTablesQuery (some "a`b") = "SHOW TABLES FROM `a`b`" ∧
    specQuoteIdentifier "a`b" = "`a``b`" ∧
    tableStatusQuery "t" none = "SHOW TABLE STATUS LIKE \x27t\x27" := by
  refine ⟨by decide, by decide, by decide, by decide⟩

/-- C6 amended: database and table names are interpolated into the
statements wrapped in backticks but with no escaping of embedded
backtick/quote characters, and `get_table_schema` additionally
interpolates the table name as a single-quoted string value in its
`SHOW TABLE STATUS ... LIKE` statement. -/
theorem identifier_interpolation_unescaped (db tableName : String) :
    listTablesQuery (some db) = "SHOW TABLES FROM `" ++ db ++ "`" ∧
    listTablesQuery none = "SHOW TABLES" ∧
    describeQuery tableName (some db) =
      "DESCRIBE " ++ ("`" ++ db ++ "`.`" ++ tableName ++ "`") ∧
    describeQuery tableName none = "DESCRIBE " ++ ("`" ++ tableName ++ "`") ∧
    tableStatusQuery tableName none = "SHOW TABLE STATUS LIKE \x27" ++ tableName ++ "\x27" ∧
    tableStatusQuery tableName (some db) =
      "SHOW TABLE STATUS FROM `" ++ db ++ "` LIKE \x27" ++ tableName ++ "\x27" :=
  ⟨rfl, rfl, rfl, rfl, rfl, rfl⟩

/-! ### C9 — concurrent `connect` -/

/-- C9 counterexample: two callers interleaved at the `create_pool`
suspension point (schedule 0,1,0,1) both construct a pool; both finish,
two pools were created, the second one is retained, nothing is closed —
the first pool is leaked, so neither "exactly one retained pool with
losers closed" nor "at most one pool at any time" holds. -/
theorem concurrent_connect_counterexample :
    allDone (runSched (initConc 2) [0, 1, 0, 1]) = true ∧
    (runSched (initConc 2) [0, 1, 0, 1]).created = [0, 1] ∧
    (runSched (initConc 2) [0, 1, 0, 1]).pool = some 1 ∧
    (runSched (initConc 2) [0, 1, 0, 1]).closed = [] ∧
    noLeakedPools (runSched (initConc 2) [0, 1, 0, 1]) = false := by
  decide

/-- After `n` serialized callers, the first caller's pool is the only
one ever created, and the first `n` tasks are finished. -/
lemma serial_connect_progress (N : Nat) :
    ∀ n, n ≤ N → 0 < n →
      runSched (initConc N) (serialSched n) =
        { pool := some 0, nextPool := 1, created := [0], closed := [],
          tasks := List.replicate n .done ++ List.replicate (N - n) .start } := by
  intro n
  induction n with
  | zero =>
    intro _ h0
    exact absurd h0 (by omega)
  | succ m ih =>
    intro hle _
    have hsched : serialSched (m + 1) = serialSched m ++ [m, m] := by
      simp [serialSched, List.range_succ]
    rw [hsched, runSched, List.foldl_append]
    rcases Nat.eq_zero_or_pos m with hm | hm
    · subst hm
      obtain ⟨K, rfl⟩ : ∃ K, N = K + 1 := ⟨N - 1, by omega⟩
      simp [serialSched, initConc, stepTask, List.replicate_succ]
    · have hmlt : m < N := by omega
      have hin : List.foldl stepTask (initConc N) (serialSched m) =
          { pool := some 0, nextPool := 1, created := [0], closed := [],
            tasks := List.replicate m TaskPhase.done ++
              List.replicate (N - m) TaskPhase.start } :=
        ih (by omega) hm
      rw [hin]
      have h1 : (List.replicate m TaskPhase.done ++
          List.replicate (N - m) TaskPhase.start)[m]? = some TaskPhase.start := by
        rw [List.getElem?_append_right (by simp)]
        simp only [List.length_replicate, Nat.sub_self]
        exact List.getElem?_replicate_of_lt (by omega)
      have h2 : (List.replicate m TaskPhase.done ++
            List.replicate (N - m) TaskPhase.start).set m TaskPhase.done =
          List.replicate (m + 1) TaskPhase.done ++
            List.replicate (N - (m + 1)) TaskPhase.start := by
        rw [List.set_append_right _ _ (by simp)]
        simp only [List.length_replicate, Nat.sub_self]
        have hrep : N - m = (N - (m + 1)) + 1 := by omega
        rw [hrep, List.replicate_succ, List.set_cons_zero, List.replicate_succ']
        simp
      have h3 : (List.replicate (m + 1) TaskPhase.done ++
          List.replicate (N - (m + 1)) TaskPhase.start)[m]? = some TaskPhase.done := by
        rw [List.getElem?_append_left (by simp)]
        exact List.getElem?_replicate_of_lt (by omega)
      simp only [List.foldl_cons, List.foldl_nil]
      rw [show stepTask
            { pool := some 0, nextPool := 1, created := [0], closed := [],
              tasks := List.replicate m TaskPhase.done ++
                List.replicate (N - m) TaskPhase.start } m =
          { pool := some 0, nextPool := 1, created := [0], closed := [],
            tasks := List.replicate (m + 1) TaskPhase.done ++
              List.replicate (N - (m + 1)) TaskPhase.start } from by
        simp [stepTask, h1, h2]]
      simp [stepTask, h3]

/-- C9 amended: `connect` has no mutual exclusion around its
check-then-create sequence, so interleaved concurrent callers can each
construct a pool, the last published pool is retained, and earlier
pools are neither retained nor closed (leaked); only when the `n`
callers run serialized (each completing before the next starts) is
exactly one pool constructed and retained — the invariant "at most one
pool, losers closed" holds only for serialized execution. -/
theorem connect_serialized_single_pool (n : Nat) (h : 1 ≤ n) :
    (runSched (initConc n) (serialSched n)).created = [0] ∧
    (runSched (initConc n) (serialSched n)).pool = some 0 ∧
    (runSched (initConc n) (serialSched n)).closed = [] ∧
    noLeakedPools (runSched (initConc n) (serialSched n)) = true ∧
    allDone (runSched (initConc n) (serialSched n)) = true := by
  rw [serial_connect_progress n n (Nat.le_refl n) h]
  refine ⟨rfl, rfl, rfl, by simp [noLeakedPools], ?_⟩
  simp [allDone, List.all_eq_true, Nat.sub_self]

/-- Witness for C9 (amended) at `n = 2`. -/
theorem connect_serialized_single_pool_witness :
    (runSched (initConc 2) (serialSched 2)).created = [0] ∧
    (runSched (initConc 2) (serialSched 2)).pool = some 0 ∧
    (runSched (initConc 2) (serialSched 2)).closed = [] ∧
    noLeakedPools (runSched (initConc 2) (serialSched 2)) = true ∧
    allDone (runSched (initConc 2) (serialSched 2)) = true :=
  connect_serialized_single_pool 2 (by decide)

end MariadbMcp
